import Mathlib

/-!
Shallow embedding of the SafeRice Express server (`src/server.js`).

The server is a MySQL-backed REST API.  We model the two tables the
handlers write (`users` and `user_log`) as Lean lists, timestamps as
integers counting milliseconds since the epoch, and each route handler
as a pure function from the database state and the request fields to a
response together with the next database state.  Fields taken from a
JSON request body are `Option String` (`none` models a JavaScript
`undefined`); the bcrypt hash and compare functions and the JWT
verifier are abstract parameters, since the claims never depend on
their internals.
-/

namespace SafeRice

/-- A generic HTTP response: status code plus the `message` (or marker)
of the JSON body.  Used for the routes whose success body carries no
token. -/
structure Resp where
  status : Nat
  message : String
deriving DecidableEq, Repr

/-- A row of the `users` table.  `password` stores the bcrypt hash. -/
structure UserRec where
  id : Nat
  firstName : String
  lastName : String
  username : String
  email : String
  password : String
deriving DecidableEq, Repr

/-- A row of the `user_log` table.  `login_time` is in milliseconds;
`logout_time = none` models SQL `NULL` (an OPEN session record). -/
structure LogRec where
  user_id : Nat
  login_time : Int
  logout_time : Option Int
  session_duration : Option Int
deriving DecidableEq, Repr

/-- The mutable database state: the two tables the handlers write, and
the auto-increment counter of `users.id`. -/
structure DB where
  users : List UserRec
  user_log : List LogRec
  nextUserId : Nat
deriving DecidableEq, Repr

/-- The payload signed into the JWT on login (`{ id, username }`). -/
structure JwtClaims where
  id : Nat
  username : String
deriving DecidableEq, Repr

/-! ## Logout (`POST /logout`, server.js 103-126) -/

/-- The row predicate of the logout queries:
`user_id = ? AND logout_time IS NULL`. -/
def openFor (uid : Nat) (r : LogRec) : Bool :=
  decide (r.user_id = uid ∧ r.logout_time = none)

/-- `SELECT * FROM user_log WHERE user_id = ? AND logout_time IS NULL`:
the user's OPEN records. -/
def openRecs (db : DB) (uid : Nat) : List LogRec :=
  db.user_log.filter (openFor uid)

/-- `ORDER BY login_time DESC LIMIT 1`: the record with the greatest
`login_time` among the given rows (the first such on a tie). -/
def selectLatest : List LogRec → Option LogRec
  | [] => none
  | r :: rs =>
    match selectLatest rs with
    | none => some r
    | some s => if s.login_time > r.login_time then some s else some r

/-- The `SET logout_time = ?, session_duration = ?` part of the logout
UPDATE, applied to one row. -/
def closeRec (t dur : Int) (r : LogRec) : LogRec :=
  { r with logout_time := some t, session_duration := some dur }

/-- `POST /logout` (server.js 103-126).  Selects the most recent OPEN
record of the user; 400 `No active session found` when none exists;
otherwise computes `Math.floor((logoutTime - login_time) / 1000)` from
the selected row and runs
`UPDATE user_log SET ... WHERE user_id = ? AND logout_time IS NULL`,
whose WHERE clause covers every OPEN row of the user, not only the
selected one. -/
def logout (db : DB) (uid : Nat) (t : Int) : Resp × DB :=
  match selectLatest (openRecs db uid) with
  | none => (⟨400, "No active session found"⟩, db)
  | some sel =>
    let dur := Int.fdiv (t - sel.login_time) 1000
    (⟨200, "success"⟩,
     { db with user_log :=
        db.user_log.map fun r => if openFor uid r then closeRec t dur r else r })

/-! ## Signup (`POST /signup`, server.js 48-77) -/

/-- JavaScript falsiness of a request-body string field: absent
(`undefined`) or the empty string. -/
def falsy : Option String → Bool
  | none => true
  | some s => s = ""

/-- `SELECT * FROM users WHERE username = ? OR email = ?`: the single
existence check of the signup handler, covering both fields in one
query. -/
def conflictUsers (db : DB) (un em : String) : List UserRec :=
  db.users.filter fun x => decide (x.username = un ∨ x.email = em)

/-- `POST /signup` (server.js 48-77).  Rejects when any of the six body
fields is falsy, then when `password !== confirmPassword` (both checks
happen before `bcrypt.hash` is called), then when the combined
username-or-email existence check finds a row; otherwise hashes the
password and inserts the new user.  The success body carries no
token. -/
def signup (hash : String → String) (db : DB)
    (firstName lastName username email password confirmPassword : Option String) :
    Resp × DB :=
  if falsy firstName || falsy lastName || falsy username || falsy email ||
      falsy password || falsy confirmPassword then
    (⟨400, "All fields are required"⟩, db)
  else if password ≠ confirmPassword then
    (⟨400, "Passwords do not match"⟩, db)
  else
    let fn := firstName.getD ""
    let ln := lastName.getD ""
    let un := username.getD ""
    let em := email.getD ""
    let pw := password.getD ""
    if (conflictUsers db un em).length > 0 then
      (⟨400, "User already exists with this username or email"⟩, db)
    else
      (⟨201, "Signup successful"⟩,
       { db with
          users := db.users ++ [⟨db.nextUserId, fn, ln, un, em, hash pw⟩],
          nextUserId := db.nextUserId + 1 })

/-! ## Login (`POST /login`, server.js 79-101) -/

/-- The result of the login route: an error status with its message, or
the 200 body carrying the signed token payload and `use_id`. -/
inductive LoginResp where
  | err (status : Nat) (message : String)
  | ok (token : JwtClaims) (use_id : Nat)
deriving DecidableEq, Repr

/-- `SELECT * FROM users WHERE username = ?`. -/
def usersByName (db : DB) (un : String) : List UserRec :=
  db.users.filter fun x => decide (x.username = un)

/-- `POST /login` (server.js 79-101).  No field-presence validation: an
absent `username` is interpolated by `db.query()` as SQL `NULL`
(mysql2's `query` escapes `undefined` to `NULL`; only `execute`
rejects it), and `username = NULL` matches no row, so the SELECT comes
back empty and the handler answers the generic 400.  An absent
`password` survives to `bcrypt.compare`, which rejects its non-string
argument (caught as 500) — but only when the username matched a user,
because the empty-result check answers first.  Unknown username and
failed password comparison both answer
400 `Invalid username or password`.  On success a log row with
`logout_time` NULL is inserted. -/
def login (compare : String → String → Bool) (db : DB) (t : Int)
    (username password : Option String) : LoginResp × DB :=
  let results := match username with
    | none => []
    | some un => usersByName db un
  match results.head? with
  | none => (.err 400 "Invalid username or password", db)
  | some user =>
    match password with
    | none => (.err 500 "Illegal arguments: undefined, string", db)
    | some pw =>
      if compare pw user.password = false then
        (.err 400 "Invalid username or password", db)
      else
        (.ok ⟨user.id, user.username⟩ user.id,
         { db with user_log := db.user_log ++ [⟨user.id, t, none, none⟩] })

/-! ## Auth gate (`authenticateToken`, server.js 36-45) -/

/-- JavaScript `String.prototype.split(' ')` on a list of characters:
splits at every single space, keeping empty pieces
(`"".split(' ')` is `[""]`, `"a b".split(' ')` is `["a","b"]`). -/
def splitSp : List Char → List (List Char)
  | [] => [[]]
  | c :: rest =>
    if c = ' ' then [] :: splitSp rest
    else
      match splitSp rest with
      | [] => [[c]]
      | r :: rs => (c :: r) :: rs

/-- Outcome of the `authenticateToken` middleware. -/
inductive AuthResult where
  | denied
  | invalidToken
  | ok (u : JwtClaims)
deriving DecidableEq, Repr

/-- `authenticateToken` (server.js 36-45).  Takes the second
space-separated part of the `Authorization` header without looking at
the scheme word; a missing part (`undefined`) or the empty string is
falsy and answers 403 `Access Denied`; otherwise the token goes to
`jwt.verify` (abstract here), 403 `Invalid token` on failure. -/
def authenticateToken (verify : List Char → Option JwtClaims)
    (header : Option (List Char)) : AuthResult :=
  match header.bind fun h => (splitSp h).get? 1 with
  | none => .denied
  | some tok =>
    if tok = [] then .denied
    else
      match verify tok with
      | none => .invalidToken
      | some u => .ok u

/-! ## Update profile (`PUT /updateProfile`, server.js 149-180) -/

/-- JavaScript string coercion of a possibly-absent field, as performed
by `RegExp.test`: `undefined` becomes the string `"undefined"`. -/
def jsStr : Option String → String
  | none => "undefined"
  | some s => s

/-- `c` matches `\S` (non-whitespace). -/
def nonSp (c : Char) : Bool := !c.isWhitespace

/-- The unanchored JavaScript test `/\S+@\S+\.\S+/.test(s)`
(server.js 154).  True exactly when some substring of `s` has the shape
`\S+@\S+\.\S+`: there are positions `i` of `'@'` and `j` of `'.'` with
a non-space character just before `i`, at least one position strictly
between `i` and `j`, all of them non-space, and a non-space character
just after `j`. -/
def reTest (s : String) : Bool :=
  let cs := s.toList
  let n := cs.length
  (List.range n).any fun i =>
    (List.range n).any fun j =>
      decide (0 < i) && decide (i + 1 < j) && decide (j + 1 < n) &&
      (cs.getD i ' ' == '@') && (cs.getD j ' ' == '.') &&
      nonSp (cs.getD (i - 1) ' ') && nonSp (cs.getD (j + 1) ' ') &&
      ((List.range n).all fun m =>
        !(decide (i < m) && decide (m < j)) || nonSp (cs.getD m ' '))

/-- SQL equality of a column against a possibly-absent bind parameter:
`db.query()` interpolates an absent (`undefined`) value as SQL `NULL`,
and `col = NULL` is never true. -/
def nullEq (bind : Option String) (col : String) : Bool :=
  match bind with
  | none => false
  | some s => col = s

/-- `PUT /updateProfile` (server.js 149-180).  Tests the email against
the regex before any query; then runs the uniqueness SELECT excluding
the caller's own row (an absent `username` is bound as SQL `NULL` and
matches no row; the email always reaches this point as a string, since
an absent one stringifies to `"undefined"` and fails the regex); then
the UPDATE, whose `affectedRows` counts the rows matching `id = ?`.
The repository does not carry the `users` schema; we take the name
columns as NOT NULL (signup always writes them), so an UPDATE binding
an absent field as `NULL` fails and is caught as 500 `Server error` —
no claim depends on this last branch. -/
def updateProfile (db : DB) (userId : Nat)
    (firstName lastName username email : Option String) : Resp × DB :=
  if reTest (jsStr email) = false then
    (⟨400, "Invalid email format"⟩, db)
  else
    let existing := db.users.filter fun u =>
      (nullEq username u.username || nullEq email u.email) && decide (u.id ≠ userId)
    if existing.length > 0 then
      (⟨400, "Username or email already in use"⟩, db)
    else
      match firstName, lastName, username, email with
      | some fn, some ln, some un, some em =>
        if (db.users.filter fun u => decide (u.id = userId)).length = 0 then
          (⟨404, "User not found or no changes made"⟩, db)
        else
          (⟨200, "Profile updated successfully"⟩,
           { db with users := db.users.map fun u =>
              if u.id = userId then
                { u with firstName := fn, lastName := ln, username := un, email := em }
              else u })
      | _, _, _, _ => (⟨500, "Server error"⟩, db)

/-! ## The operations of the system, for the state invariant -/

/-- One request to any route of the server.  The `get*` routes only run
SELECT queries. -/
inductive Op where
  | signup (fn ln un em pw cpw : Option String)
  | login (t : Int) (un pw : Option String)
  | logout (uid : Nat) (t : Int)
  | getUsername (uid : Nat)
  | getProfile (uid : Nat)
  | updateProfile (uid : Nat) (fn ln un em : Option String)
  | getDiseaseSolutions
  | getDiseases
  | getMedicine

/-- The effect of one request on the database state.  The read-only
routes (`GET /getUsername`, `GET /getProfile` and the three disease
routes) issue only SELECT queries and leave the state unchanged. -/
def step (hash : String → String) (compare : String → String → Bool)
    (op : Op) (db : DB) : DB :=
  match op with
  | .signup fn ln un em pw cpw => (signup hash db fn ln un em pw cpw).2
  | .login t un pw => (login compare db t un pw).2
  | .logout uid t => (logout db uid t).2
  | .getUsername _ => db
  | .getProfile _ => db
  | .updateProfile uid fn ln un em => (updateProfile db uid fn ln un em).2
  | .getDiseaseSolutions => db
  | .getDiseases => db
  | .getMedicine => db

/-! ## Basic lemmas about the logout selection -/

theorem selectLatest_mem : ∀ {l : List LogRec} {s : LogRec},
    selectLatest l = some s → s ∈ l := by
  intro l
  induction l with
  | nil => intro s h; simp [selectLatest] at h
  | cons r rs ih =>
    intro s h
    simp only [selectLatest] at h
    cases hrec : selectLatest rs with
    | none => rw [hrec] at h; simp at h; simp [h]
    | some m =>
      rw [hrec] at h
      by_cases hlt : m.login_time > r.login_time
      · simp [hlt] at h
        exact List.mem_cons_of_mem _ (ih (h ▸ hrec))
      · simp [hlt] at h
        simp [h]

theorem selectLatest_eq_none {l : List LogRec} :
    selectLatest l = none ↔ l = [] := by
  cases l with
  | nil => simp [selectLatest]
  | cons r rs =>
    simp only [selectLatest]
    constructor
    · intro h
      cases hrec : selectLatest rs <;> rw [hrec] at h <;> simp at h
      split at h <;> simp at h
    · intro h; simp at h

/-! ## Concrete states used to exercise the model -/

/-- A database whose single user (id 1) has two OPEN log records, from
logins at 1000 ms and 5000 ms. -/
def dbTwoOpen : DB :=
  { users := [⟨1, "f", "l", "u", "e", "h"⟩],
    user_log := [⟨1, 1000, none, none⟩, ⟨1, 5000, none, none⟩],
    nextUserId := 2 }

/-- The empty database. -/
def dbEmpty : DB := { users := [], user_log := [], nextUserId := 1 }

/-- A database with one user whose stored password hash is `"secret"`
and no log records. -/
def dbOneUser : DB :=
  { users := [⟨1, "f", "l", "u", "e", "secret"⟩], user_log := [], nextUserId := 2 }

/-- A database whose user 1 owns one CLOSED and one OPEN log record. -/
def dbClosedOpen : DB :=
  { users := [⟨1, "f", "l", "u", "e", "h"⟩],
    user_log := [⟨1, 1000, some 2000, some 1⟩, ⟨1, 3000, none, none⟩],
    nextUserId := 2 }

/-! ## Claims -/

/-- C1.  The spec states that a logout transitions only the most
recently created OPEN record to CLOSED and leaves every other OPEN
record of the user unchanged.  The code's UPDATE
(`WHERE user_id = ? AND logout_time IS NULL`, server.js 118) carries no
per-row filter, so on a user with two OPEN records (logins at 1000 ms
and 5000 ms, logout at 9000 ms) it closes BOTH — and stamps both with
the duration 4 s computed from the later record's login time alone. -/
theorem logout_closes_every_open_record :
    (logout dbTwoOpen 1 9000).1 = ⟨200, "success"⟩ ∧
    (logout dbTwoOpen 1 9000).2.user_log =
      [⟨1, 1000, some 9000, some 4⟩, ⟨1, 5000, some 9000, some 4⟩] := by
  decide

/-- C2.  When logout finds an OPEN record, the record it selected (the
one with the greatest login time among the user's OPEN rows) appears in
the next state closed at the logout time with
`session_duration = ⌊(logoutTime − login_time) / 1000⌋` (integer floor
division), and under a non-backwards clock that duration is
non-negative. -/
theorem logout_duration_of_latest_open (db : DB) (uid : Nat) (t : Int)
    (sel : LogRec) (hsel : selectLatest (openRecs db uid) = some sel) :
    closeRec t ((t - sel.login_time).fdiv 1000) sel ∈ (logout db uid t).2.user_log
    ∧ (closeRec t ((t - sel.login_time).fdiv 1000) sel).session_duration
        = some ((t - sel.login_time).fdiv 1000)
    ∧ (sel.login_time ≤ t → 0 ≤ (t - sel.login_time).fdiv 1000) := by
  have hmemf : sel ∈ openRecs db uid := selectLatest_mem hsel
  have hmem : sel ∈ db.user_log := List.mem_of_mem_filter hmemf
  have hopen : openFor uid sel = true := List.of_mem_filter hmemf
  refine ⟨?_, rfl, ?_⟩
  · simp only [logout, hsel]
    have : (fun r => if openFor uid r then closeRec t ((t - sel.login_time).fdiv 1000) r else r) sel
        = closeRec t ((t - sel.login_time).fdiv 1000) sel := by
      simp [hopen]
    exact this ▸ List.mem_map_of_mem _ hmem
  · intro hle
    exact Int.fdiv_nonneg (by omega) (by norm_num)

/-- C2 witness: a concrete logout at 9000 ms of the session opened at
5000 ms. -/
theorem logout_duration_of_latest_open_witness :
    closeRec 9000 4 ⟨1, 5000, none, none⟩ ∈ (logout dbTwoOpen 1 9000).2.user_log := by
  have h := logout_duration_of_latest_open dbTwoOpen 1 9000 ⟨1, 5000, none, none⟩ (by decide)
  have e : ((9000 : Int) - (5000 : Int)).fdiv 1000 = 4 := by decide
  simpa [e] using h.1

theorem logout_fail_of_no_open (db : DB) (uid : Nat) (t : Int)
    (h : openRecs db uid = []) :
    logout db uid t = (⟨400, "No active session found"⟩, db) := by
  have hsel : selectLatest (openRecs db uid) = none := by rw [h]; rfl
  simp [logout, hsel]

theorem openRecs_logout (db : DB) (uid : Nat) (t : Int) :
    openRecs (logout db uid t).2 uid = [] := by
  cases hsel : selectLatest (openRecs db uid) with
  | none =>
    simp only [logout, hsel]
    exact selectLatest_eq_none.mp hsel
  | some sel =>
    simp only [logout, hsel]
    simp only [openRecs]
    rw [List.filter_eq_nil_iff]
    intro a ha
    rw [List.mem_map] at ha
    obtain ⟨x, _, rfl⟩ := ha
    by_cases h : openFor uid x
    · rw [if_pos h]
      simp [openFor, closeRec]
    · rw [if_neg h]
      exact h

/-- C3.  The logout route answers 400 `No active session found` exactly
when the user has no OPEN log record; on that failure the state is
untouched; and a logout that succeeded leaves no OPEN record behind, so
a second consecutive logout for the same user fails the same way. -/
theorem logout_noActiveSession_iff (db : DB) (uid : Nat) (t t2 : Int) :
    ((logout db uid t).1 = ⟨400, "No active session found"⟩ ↔ openRecs db uid = [])
    ∧ (openRecs db uid = [] → (logout db uid t).2 = db)
    ∧ ((logout db uid t).1.status = 200 →
        (logout (logout db uid t).2 uid t2).1 = ⟨400, "No active session found"⟩) := by
  refine ⟨⟨?_, ?_⟩, ?_, ?_⟩
  · intro h
    cases hsel : selectLatest (openRecs db uid) with
    | none => exact selectLatest_eq_none.mp hsel
    | some sel =>
      rw [show (logout db uid t).1 = ⟨200, "success"⟩ by simp [logout, hsel]] at h
      exact absurd h (by decide)
  · intro h
    rw [logout_fail_of_no_open db uid t h]
  · intro h
    rw [logout_fail_of_no_open db uid t h]
  · intro _
    rw [logout_fail_of_no_open _ uid t2 (openRecs_logout db uid t)]

/-- C3 witness: a logout with no prior login fails with
`No active session found` and the double-logout clause holds on the
two-open-records state. -/
theorem logout_noActiveSession_iff_witness :
    (logout dbEmpty 7 100).1 = ⟨400, "No active session found"⟩
    ∧ (logout (logout dbTwoOpen 1 9000).2 1 9500).1 =
        ⟨400, "No active session found"⟩ :=
  ⟨((logout_noActiveSession_iff dbEmpty 7 100 0).1).mpr (by decide),
   (logout_noActiveSession_iff dbTwoOpen 1 9000 9500).2.2 (by decide)⟩

/-! ## C8: CLOSED log records are immutable -/

theorem signup_user_log (hash : String → String) (db : DB)
    (fn ln un em pw cpw : Option String) :
    (signup hash db fn ln un em pw cpw).2.user_log = db.user_log := by
  unfold signup
  dsimp only
  repeat' split
  all_goals rfl

theorem updateProfile_user_log (db : DB) (uid : Nat)
    (fn ln un em : Option String) :
    (updateProfile db uid fn ln un em).2.user_log = db.user_log := by
  unfold updateProfile
  dsimp only
  repeat' split
  all_goals rfl

theorem login_user_log_mono (compare : String → String → Bool) (db : DB)
    (t : Int) (un pw : Option String) (r : LogRec) (h : r ∈ db.user_log) :
    r ∈ (login compare db t un pw).2.user_log := by
  unfold login
  dsimp only
  repeat' split
  all_goals first
    | exact h
    | exact List.mem_append_left _ h

theorem logout_keeps_closed (db : DB) (uid : Nat) (t : Int) (r : LogRec)
    (hmem : r ∈ db.user_log) (hclosed : r.logout_time ≠ none) :
    r ∈ (logout db uid t).2.user_log := by
  cases hsel : selectLatest (openRecs db uid) with
  | none => simpa [logout, hsel] using hmem
  | some sel =>
    simp only [logout, hsel]
    have hno : openFor uid r = false := by
      simp only [openFor, decide_eq_false_iff_not]
      intro hc
      exact hclosed hc.2
    have he : (fun x => if openFor uid x then
        closeRec t ((t - sel.login_time).fdiv 1000) x else x) r = r := by
      simp [hno]
    exact he ▸ List.mem_map_of_mem _ hmem

/-- C8.  Every route of the server preserves CLOSED log records
verbatim: a record whose `logout_time` is set is still present,
unchanged, after any operation — `CLOSED` is terminal and a record
never reopens (the logout UPDATE's WHERE clause requires
`logout_time IS NULL`, login only inserts, and no other route writes
`user_log`). -/
theorem closed_records_never_modified (hash : String → String)
    (compare : String → String → Bool) (op : Op) (db : DB) (r : LogRec)
    (hmem : r ∈ db.user_log) (hclosed : r.logout_time ≠ none) :
    r ∈ (step hash compare op db).user_log := by
  cases op with
  | signup fn ln un em pw cpw =>
    rw [step, signup_user_log]; exact hmem
  | login t un pw =>
    exact login_user_log_mono compare db t un pw r hmem
  | logout uid t =>
    exact logout_keeps_closed db uid t r hmem hclosed
  | getUsername uid => exact hmem
  | getProfile uid => exact hmem
  | updateProfile uid fn ln un em =>
    rw [step, updateProfile_user_log]; exact hmem
  | getDiseaseSolutions => exact hmem
  | getDiseases => exact hmem
  | getMedicine => exact hmem

/-- C8 witness: a closed record survives a concrete logout of its own
user. -/
theorem closed_records_never_modified_witness :
    (⟨1, 1000, some 2000, some 1⟩ : LogRec) ∈
      (step (fun s => s) (fun _ _ => true) (.logout 1 5000) dbClosedOpen).user_log :=
  closed_records_never_modified (fun s => s) (fun _ _ => true) (.logout 1 5000)
    dbClosedOpen _ (by decide) (by decide)

/-- C4.  The login route's answer for an unknown username is the very
response — status and message — it gives for a known username with a
password failing the bcrypt comparison: both are
400 `Invalid username or password`, so a caller cannot tell which part
was wrong. -/
theorem login_error_indistinguishable (compare : String → String → Bool)
    (db db2 : DB) (t t2 : Int) (un un2 pw pw2 : String) (u : UserRec)
    (h1 : usersByName db un = [])
    (h2 : (usersByName db2 un2).head? = some u)
    (h3 : compare pw2 u.password = false) :
    (login compare db t (some un) (some pw)).1 =
      .err 400 "Invalid username or password"
    ∧ (login compare db2 t2 (some un2) (some pw2)).1 =
      .err 400 "Invalid username or password"
    ∧ (login compare db t (some un) (some pw)).1 =
      (login compare db2 t2 (some un2) (some pw2)).1 := by
  have e1 : (login compare db t (some un) (some pw)).1 =
      .err 400 "Invalid username or password" := by
    simp [login, h1]
  have e2 : (login compare db2 t2 (some un2) (some pw2)).1 =
      .err 400 "Invalid username or password" := by
    simp [login, h2, h3]
  exact ⟨e1, e2, by rw [e1, e2]⟩

/-- C4 witness: concrete unknown-username and wrong-password logins
against a one-user database answer identically. -/
theorem login_error_indistinguishable_witness :
    (login (fun p h => decide (p = h)) dbOneUser 0 (some "ghost") (some "x")).1 =
      (login (fun p h => decide (p = h)) dbOneUser 0 (some "u") (some "wrong")).1 :=
  (login_error_indistinguishable (fun p h => decide (p = h)) dbOneUser dbOneUser
    0 0 "ghost" "u" "x" "wrong" ⟨1, "f", "l", "u", "e", "secret"⟩
    (by decide) (by decide) (by decide)).2.2

/-- C5.  Once the validation checks pass, signup answers
400 `User already exists with this username or email` exactly when the
single combined existence query (username OR email) finds a row; on
that conflict the state is unchanged, and otherwise the new user is
appended and the response is the 201 success body, which carries no
token. -/
theorem signup_conflict_iff (hash : String → String) (db : DB)
    (fn ln un em pw : String) (hfn : fn ≠ "") (hln : ln ≠ "")
    (hun : un ≠ "") (hem : em ≠ "") (hpw : pw ≠ "") :
    ((signup hash db (some fn) (some ln) (some un) (some em) (some pw) (some pw)).1 =
        ⟨400, "User already exists with this username or email"⟩
      ↔ conflictUsers db un em ≠ [])
    ∧ (conflictUsers db un em ≠ [] →
        (signup hash db (some fn) (some ln) (some un) (some em) (some pw) (some pw)).2 = db)
    ∧ (conflictUsers db un em = [] →
        (signup hash db (some fn) (some ln) (some un) (some em) (some pw) (some pw)).1 =
          ⟨201, "Signup successful"⟩
        ∧ (signup hash db (some fn) (some ln) (some un) (some em) (some pw) (some pw)).2.users =
          db.users ++ [⟨db.nextUserId, fn, ln, un, em, hash pw⟩]) := by
  have hv : (falsy (some fn) || falsy (some ln) || falsy (some un) || falsy (some em) ||
      falsy (some pw) || falsy (some pw)) = false := by
    simp [falsy, hfn, hln, hun, hem, hpw]
  by_cases hc : conflictUsers db un em = []
  · have hlen : ¬(conflictUsers db un em).length > 0 := by simp [hc]
    refine ⟨⟨?_, ?_⟩, ?_, ?_⟩
    · intro h
      rw [show (signup hash db (some fn) (some ln) (some un) (some em) (some pw) (some pw)).1 =
          ⟨201, "Signup successful"⟩ by simp [signup, hv, hlen]] at h
      exact absurd h (by decide)
    · intro h; exact absurd hc h
    · intro h; exact absurd hc h
    · intro _
      constructor
      · simp [signup, hv, hlen]
      · simp [signup, hv, hlen]
  · have hlen : (conflictUsers db un em).length > 0 := by
      cases hl : conflictUsers db un em with
      | nil => exact absurd hl hc
      | cons a l => simp [hl]
    refine ⟨⟨fun _ => hc, fun _ => ?_⟩, fun _ => ?_, fun h => absurd h hc⟩
    · simp [signup, hv, hlen]
    · simp [signup, hv, hlen]

/-- C5 witness: re-signing up the existing username conflicts and
leaves the state unchanged; a fresh signup succeeds. -/
theorem signup_conflict_iff_witness :
    (signup (fun s => s) dbOneUser
        (some "a") (some "b") (some "u") (some "n@n.n") (some "p") (some "p")).2 =
      dbOneUser :=
  (signup_conflict_iff (fun s => s) dbOneUser "a" "b" "u" "n@n.n" "p"
    (by decide) (by decide) (by decide) (by decide) (by decide)).2.1 (by decide)

/-- C6.  Signup answers 400 — `All fields are required` when any of the
six body fields is absent or empty, else `Passwords do not match` when
the two password fields differ — leaving the state unchanged; and the
outcome is the same whatever the hash function, because both checks run
at the handler before `bcrypt.hash` is called. -/
theorem signup_validation (hash hash2 : String → String) (db : DB)
    (fn ln un em pw cpw : Option String)
    (h : (falsy fn || falsy ln || falsy un || falsy em || falsy pw || falsy cpw) = true
      ∨ pw ≠ cpw) :
    (signup hash db fn ln un em pw cpw).1.status = 400
    ∧ (signup hash db fn ln un em pw cpw).1.message =
        (if falsy fn || falsy ln || falsy un || falsy em || falsy pw || falsy cpw then
          "All fields are required" else "Passwords do not match")
    ∧ (signup hash db fn ln un em pw cpw).2 = db
    ∧ signup hash db fn ln un em pw cpw = signup hash2 db fn ln un em pw cpw := by
  by_cases hf : (falsy fn || falsy ln || falsy un || falsy em || falsy pw || falsy cpw) = true
  · refine ⟨?_, ?_, ?_, ?_⟩ <;> simp [signup, hf]
  · have hne : pw ≠ cpw := h.resolve_left hf
    rw [Bool.not_eq_true] at hf
    refine ⟨?_, ?_, ?_, ?_⟩ <;> simp [signup, hf, hne]

/-- C6 witness: a signup with mismatched passwords is rejected with the
mismatch message and leaves the empty database unchanged. -/
theorem signup_validation_witness :
    (signup (fun s => s) dbEmpty (some "a") (some "b") (some "u") (some "e")
        (some "p1") (some "p2")).1.message = "Passwords do not match"
    ∧ (signup (fun s => s) dbEmpty (some "a") (some "b") (some "u") (some "e")
        (some "p1") (some "p2")).2 = dbEmpty := by
  have h := signup_validation (fun s => s) (fun s => s ++ s) dbEmpty
    (some "a") (some "b") (some "u") (some "e") (some "p1") (some "p2")
    (Or.inr (by decide))
  exact ⟨by rw [h.2.1]; decide, h.2.2.1⟩

/-! ## C7: the email-shape check of `PUT /updateProfile` -/

theorem reTest_mem_at {s : String} (h : reTest s = true) : '@' ∈ s.toList := by
  unfold reTest at h
  simp only [List.any_eq_true, List.mem_range] at h
  obtain ⟨i, hi, j, hj, hb⟩ := h
  simp only [Bool.and_eq_true, decide_eq_true_eq, beq_iff_eq] at hb
  have hat : s.toList.getD i ' ' = '@' := hb.1.1.1.1.2
  rw [List.getD_eq_getElem?_getD, List.getElem?_eq_getElem hi] at hat
  simp only [Option.getD_some] at hat
  exact hat ▸ List.getElem_mem hi

/-- C7 counterexample: the email `"x y@z.d"` contains an embedded
space, yet a concrete `PUT /updateProfile` carrying it succeeds (the
unanchored regex matches the substring `"y@z.d"`) and the stored
profile changes — the claim says every email with embedded whitespace
is rejected with the profile untouched. -/
theorem updateProfile_ws_email_counterexample :
    ' ' ∈ ("x y@z.d").toList
    ∧ (updateProfile dbOneUser 1 (some "a") (some "b") (some "u2")
        (some "x y@z.d")).1 = ⟨200, "Profile updated successfully"⟩
    ∧ (updateProfile dbOneUser 1 (some "a") (some "b") (some "u2")
        (some "x y@z.d")).2 ≠ dbOneUser := by
  decide

/-- C7 (amended).  `PUT /updateProfile` answers 400
`Invalid email format`, before any query and leaving the state
unchanged, for every email in which the unanchored test
`/\S+@\S+\.\S+/.test(email)` finds no whitespace-free `local@domain`
substring; every email lacking the character `'@'` is rejected this
way; but an email containing embedded whitespace is NOT necessarily
rejected: whenever such a substring occurs elsewhere in it, the
request passes the email check — the handler never answers
`Invalid email format` — and proceeds to the queries. -/
theorem updateProfile_email_check (db db2 : DB) (uid uid2 : Nat)
    (fn ln un fn2 ln2 un2 em em2 : Option String) (s : String)
    (hno : reTest (jsStr em) = false) (hat : '@' ∉ s.toList)
    (hyes : reTest (jsStr em2) = true) :
    updateProfile db uid fn ln un em = (⟨400, "Invalid email format"⟩, db)
    ∧ reTest s = false
    ∧ (updateProfile db2 uid2 fn2 ln2 un2 em2).1 ≠ ⟨400, "Invalid email format"⟩ := by
  refine ⟨by simp [updateProfile, hno], ?_, ?_⟩
  · by_contra h
    rw [Bool.not_eq_false] at h
    exact hat (reTest_mem_at h)
  · unfold updateProfile
    rw [if_neg (by simp [hyes])]
    dsimp only
    repeat' split
    all_goals dsimp only
    all_goals decide

/-- C7 witness: an email without `'@'` makes a concrete update fail
with `Invalid email format` and keeps the database, while the
whitespace-carrying `"x y@z.d"` passes the email check. -/
theorem updateProfile_email_check_witness :
    updateProfile dbOneUser 1 (some "a") (some "b") (some "u2") (some "plain") =
      (⟨400, "Invalid email format"⟩, dbOneUser)
    ∧ (updateProfile dbOneUser 1 (some "a") (some "b") (some "u2")
        (some "x y@z.d")).1 ≠ ⟨400, "Invalid email format"⟩ := by
  have h := updateProfile_email_check dbOneUser dbOneUser 1 1
    (some "a") (some "b") (some "u2") (some "a") (some "b") (some "u2")
    (some "plain") (some "x y@z.d") "plain"
    (by decide) (by decide) (by decide)
  exact ⟨h.1, h.2.2⟩

/-! ## C9: the auth gate ignores the scheme word -/

theorem splitSp_no_space : ∀ {h : List Char}, ' ' ∉ h → splitSp h = [h] := by
  intro h
  induction h with
  | nil => intro _; rfl
  | cons c rest ih =>
    intro hns
    have hc : ¬c = ' ' := fun e => hns (e ▸ List.mem_cons_self c rest)
    have hr : ' ' ∉ rest := fun m => hns (List.mem_cons_of_mem c m)
    simp only [splitSp, if_neg hc, ih hr]

theorem splitSp_append {s t : List Char} (hs : ' ' ∉ s) (ht : ' ' ∉ t) :
    splitSp (s ++ ' ' :: t) = [s, t] := by
  induction s with
  | nil => simp [splitSp, splitSp_no_space ht]
  | cons c rest ih =>
    have hc : ¬c = ' ' := fun e => hs (e ▸ List.mem_cons_self c rest)
    have hr : ' ' ∉ rest := fun m => hs (List.mem_cons_of_mem c m)
    simp only [List.cons_append, splitSp, if_neg hc]
    rw [List.append_eq, ih hr]

/-- C9.  The auth gate takes `Authorization`'s second space-separated
part as the token and never inspects the scheme word: any header
`s ++ " " ++ t` whose token `t` verifies is accepted whatever the
scheme `s`, while a header containing no space yields no second part
(`undefined` in JavaScript) and is refused with 403 `Access Denied`. -/
theorem authGate_ignores_scheme (verify : List Char → Option JwtClaims)
    (s t h : List Char) (u : JwtClaims) (_hs1 : s ≠ []) (hs2 : ' ' ∉ s)
    (ht1 : ' ' ∉ t) (ht2 : t ≠ []) (hv : verify t = some u) (hh : ' ' ∉ h) :
    authenticateToken verify (some (s ++ ' ' :: t)) = .ok u
    ∧ authenticateToken verify (some h) = .denied := by
  constructor
  · simp only [authenticateToken, Option.bind, splitSp_append hs2 ht1]
    simp [ht2, hv]
  · simp only [authenticateToken, Option.bind, splitSp_no_space hh]
    rfl

/-- C9 witness: the header `"X tok"` with a non-Bearer scheme passes
the gate, and the bare `"tok"` is denied. -/
theorem authGate_ignores_scheme_witness :
    authenticateToken
        (fun tok => if tok = ['t', 'o', 'k'] then some ⟨1, "u"⟩ else none)
        (some (['X'] ++ ' ' :: ['t', 'o', 'k'])) = .ok ⟨1, "u"⟩
    ∧ authenticateToken
        (fun tok => if tok = ['t', 'o', 'k'] then some ⟨1, "u"⟩ else none)
        (some ['t', 'o', 'k']) = .denied :=
  authGate_ignores_scheme
    (fun tok => if tok = ['t', 'o', 'k'] then some ⟨1, "u"⟩ else none)
    ['X'] ['t', 'o', 'k'] ['t', 'o', 'k'] ⟨1, "u"⟩
    (by decide) (by decide) (by decide) (by decide) (by decide) (by decide)

/-! ## C10: absent login fields -/

/-- The HTTP status behind a `LoginResp`. -/
def loginStatus : LoginResp → Nat
  | .err s _ => s
  | .ok _ _ => 200

/-- C10 counterexample: a login whose `password` is absent but whose
`username` names no existing user answers 400
`Invalid username or password` — not the Internal 500 the claim
predicts for every request missing a field. -/
theorem login_absent_password_counterexample :
    (login (fun _ _ => false) dbEmpty 0 (some "bob") none).1 =
      .err 400 "Invalid username or password"
    ∧ loginStatus (login (fun _ _ => false) dbEmpty 0 (some "bob") none).1 ≠ 500 := by
  decide

/-- C10 (amended).  The login handler performs no field-presence
validation, and no missing-field request gets a 400 ValidationError.
An absent `username` is interpolated by `db.query()` as SQL `NULL`,
matches no row, and yields the generic
400 `Invalid username or password` with the state untouched; an absent
`password` with a username matching an existing user reaches
`bcrypt.compare` and fails there with HTTP 500; an absent `password`
with an unknown username yields the generic 400, because the
empty-result check answers before the comparison. -/
theorem login_no_field_validation (compare : String → String → Bool)
    (db db2 : DB) (t t2 t3 : Int) (pw : Option String) (un un2 : String)
    (u : UserRec) (hu : (usersByName db un).head? = some u)
    (hn : usersByName db2 un2 = []) :
    (login compare db t none pw).1 =
      .err 400 "Invalid username or password"
    ∧ (login compare db t none pw).2 = db
    ∧ (login compare db t2 (some un) none).1 =
      .err 500 "Illegal arguments: undefined, string"
    ∧ (login compare db2 t3 (some un2) none).1 =
      .err 400 "Invalid username or password" := by
  refine ⟨rfl, rfl, ?_, ?_⟩
  · simp [login, hu]
  · simp [login, hn]

/-- C10 witness: the three absent-field outcomes at concrete states. -/
theorem login_no_field_validation_witness :
    (login (fun _ _ => false) dbOneUser 0 none (some "x")).1 =
      .err 400 "Invalid username or password"
    ∧ (login (fun _ _ => false) dbOneUser 0 (some "u") none).1 =
      .err 500 "Illegal arguments: undefined, string"
    ∧ (login (fun _ _ => false) dbEmpty 0 (some "ghost") none).1 =
      .err 400 "Invalid username or password" := by
  have h := login_no_field_validation (fun _ _ => false) dbOneUser dbEmpty 0 0 0
    (some "x") "u" "ghost" ⟨1, "f", "l", "u", "e", "secret"⟩
    (by decide) (by decide)
  exact ⟨h.1, h.2.2.1, h.2.2.2⟩
